import Mathlib

/-!
Shallow embedding of the ttls Twinkly LED client
(source files: src/ttls.py and src/ttls/cli.py).

The Python client is single-threaded and synchronous, so it is embedded as
pure functions over an explicit client state and a virtual clock.  Network
interactions are represented by an explicit device model (the responses the
device would give) and by a trace of emitted events (HTTP requests and UDP
datagrams).  Exceptions raised by the Python code are represented by an
error component in each operation's result.
-/

/-- JSON bodies that the client posts, as far as the claims need to
distinguish them (source: the json= and data= arguments of _post calls). -/
inductive PostBody : Type
  | empty
  | nameSet (n : String)
  | modeSet (m : String)
  | mqttConfig (j : String)
  | movieConfig (frameDelay : Int) (leds : Nat) (frames : Nat)
  | raw (bytes : List Nat)
  deriving DecidableEq, Repr

/-- An HTTP request issued by the client.  `login` is the raw
session.post of Twinkly.login; `get`/`post` are requests issued through
the _get/_post helpers with the endpoint path. -/
inductive Req : Type
  | login
  | get (endpoint : String)
  | post (endpoint : String) (body : PostBody)
  deriving DecidableEq, Repr

/-- Observable network events: HTTP requests and UDP datagrams
(the datagram carries its exact byte content). -/
inductive Ev : Type
  | http (r : Req)
  | udp (datagram : List Nat)
  deriving DecidableEq, Repr

/-- Python exceptions that the modelled code can raise.
`httpError` stands for requests.HTTPError from raise_for_status;
`valueErrorFrameLength` for ValueError("Invalid frame length");
`valueErrorByteRange` for the ValueError raised by bytes() on a value
outside range(0, 256); `typeError` for base64.b64decode(None);
`binasciiError` for base64 decoding failures; `recursionError` for the
unbounded ensure_token/verify_login recursion (modelled via fuel). -/
inductive Err : Type
  | httpError
  | valueErrorFrameLength
  | valueErrorByteRange
  | typeError
  | binasciiError
  | recursionError
  deriving DecidableEq, Repr

/-- The mutable attributes of a Twinkly instance that the claims concern:
`expires` (self.expires, an absolute virtual timestamp or None),
`tok` (self._token), and `lengthCache` (self._length). -/
structure ClientState : Type where
  expires : Option Nat
  tok : Option String
  lengthCache : Option Nat
  deriving DecidableEq, Repr

/-- The device's behaviour, as seen by the client: the login response
(None = non-2xx status on /login), whether a POST/GET to a given endpoint
returns a success status, and the number_of_led field of /gestalt. -/
structure Device : Type where
  loginResp : Option (String × Nat)
  postStatusOk : String → Bool
  getStatusOk : String → Bool
  numberOfLed : Nat

/-- The expiry condition tested by Twinkly.ensure_token:
self.expires is None or self.expires <= time.time(). -/
def tokenExpired (s : ClientState) (t : Nat) : Bool :=
  match s.expires with
  | none => true
  | some e => e ≤ t

/-- Twinkly.login: posts the challenge to /login, raises on non-success
status (state unchanged), otherwise stores the returned token, sets the
X-Auth-Token header, and sets expires = now + returned ttl. -/
def login (t : Nat) (dev : Device) (s : ClientState) :
    ClientState × List Ev × Option Err :=
  match dev.loginResp with
  | none => (s, [Ev.http Req.login], some Err.httpError)
  | some (tk, ttl) =>
      ({ s with tok := some tk, expires := some (t + ttl) },
       [Ev.http Req.login], none)

/-- Twinkly.ensure_token: if the expiry condition holds, runs login()
then verify_login().  verify_login posts /verify through _post, which
itself re-runs ensure_token first; that mutual recursion is bounded here
by a fuel parameter (fuel exhaustion models the unbounded recursion that
a zero ttl would cause in the Python code). -/
def ensure_token : Nat → Nat → Device → ClientState → ClientState × List Ev × Option Err
  | 0, _, _, s => (s, [], some Err.recursionError)
  | fuel + 1, t, dev, s =>
    if tokenExpired s t then
      let lr := login t dev s
      match lr.2.2 with
      | some e => (lr.1, lr.2.1, some e)
      | none =>
        let ir := ensure_token fuel t dev lr.1
        match ir.2.2 with
        | some e => (ir.1, lr.2.1 ++ ir.2.1, some e)
        | none =>
          let evs := lr.2.1 ++ ir.2.1 ++ [Ev.http (Req.post "verify" PostBody.empty)]
          if dev.postStatusOk "verify" then (ir.1, evs, none)
          else (ir.1, evs, some Err.httpError)
    else (s, [], none)

/-- Twinkly._get: ensure_token, then issue the GET request; the result
Bool is whether the response has a success status (raise_for_status is
the caller's job in the source). -/
def getOp (fuel t : Nat) (dev : Device) (s : ClientState) (ep : String) :
    ClientState × List Ev × Except Err Bool :=
  let r := ensure_token fuel t dev s
  match r.2.2 with
  | some e => (r.1, r.2.1, Except.error e)
  | none => (r.1, r.2.1 ++ [Ev.http (Req.get ep)], Except.ok (dev.getStatusOk ep))

/-- Twinkly._post: ensure_token, then issue the POST request with its
body; the result Bool is whether the response has a success status. -/
def postOp (fuel t : Nat) (dev : Device) (s : ClientState) (ep : String) (body : PostBody) :
    ClientState × List Ev × Except Err Bool :=
  let r := ensure_token fuel t dev s
  match r.2.2 with
  | some e => (r.1, r.2.1, Except.error e)
  | none => (r.1, r.2.1 ++ [Ev.http (Req.post ep body)], Except.ok (dev.postStatusOk ep))

/-- Twinkly.logout: _post('logout'), raise_for_status, then clear
self._token (self.expires is left untouched by the source). -/
def logout (fuel t : Nat) (dev : Device) (s : ClientState) :
    ClientState × List Ev × Except Err Unit :=
  let r := postOp fuel t dev s "logout" PostBody.empty
  match r.2.2 with
  | Except.error e => (r.1, r.2.1, Except.error e)
  | Except.ok true => ({ r.1 with tok := none }, r.2.1, Except.ok ())
  | Except.ok false => (r.1, r.2.1, Except.error Err.httpError)

/-- The Twinkly.token property: ensure_token, then return self._token. -/
def tokenProp (fuel t : Nat) (dev : Device) (s : ClientState) :
    ClientState × List Ev × Except Err (Option String) :=
  let r := ensure_token fuel t dev s
  match r.2.2 with
  | some e => (r.1, r.2.1, Except.error e)
  | none => (r.1, r.2.1, Except.ok r.1.tok)

/-- Twinkly.get_details: _get('gestalt'), raise_for_status, return the
JSON body; the claims only need its number_of_led field. -/
def get_details (fuel t : Nat) (dev : Device) (s : ClientState) :
    ClientState × List Ev × Except Err Nat :=
  let r := getOp fuel t dev s "gestalt"
  match r.2.2 with
  | Except.error e => (r.1, r.2.1, Except.error e)
  | Except.ok true => (r.1, r.2.1, Except.ok dev.numberOfLed)
  | Except.ok false => (r.1, r.2.1, Except.error Err.httpError)

/-- The Twinkly.length property: return the cached self._length, or
fetch it once via get_details()['number_of_led'] and cache it. -/
def lengthProp (fuel t : Nat) (dev : Device) (s : ClientState) :
    ClientState × List Ev × Except Err Nat :=
  match s.lengthCache with
  | some n => (s, [], Except.ok n)
  | none =>
    let r := get_details fuel t dev s
    match r.2.2 with
    | Except.error e => (r.1, r.2.1, Except.error e)
    | Except.ok n => ({ r.1 with lengthCache := some n }, r.2.1, Except.ok n)

/-- Value of one base64 alphabet character (standard alphabet). -/
def b64Char (c : Char) : Option Nat :=
  if 'A' ≤ c ∧ c ≤ 'Z' then some (c.toNat - 65)
  else if 'a' ≤ c ∧ c ≤ 'z' then some (c.toNat - 97 + 26)
  else if '0' ≤ c ∧ c ≤ '9' then some (c.toNat - 48 + 52)
  else if c = '+' then some 62
  else if c = '/' then some 63
  else none

/-- Base64 decoding of four-character groups, with '=' padding allowed
only in the final group; models base64.b64decode on well-formed
standard-alphabet input (none = binascii.Error). -/
def b64DecodeGroups : List Char → Option (List Nat)
  | [] => some []
  | c1 :: c2 :: c3 :: c4 :: rest => do
      let a ← b64Char c1
      let b ← b64Char c2
      if c3 = '=' ∧ c4 = '=' ∧ rest = [] then
        some [a * 4 + b / 16]
      else do
        let cc ← b64Char c3
        if c4 = '=' ∧ rest = [] then
          some [a * 4 + b / 16, b % 16 * 16 + cc / 4]
        else do
          let d ← b64Char c4
          let restBytes ← b64DecodeGroups rest
          some ((a * 4 + b / 16) :: (b % 16 * 16 + cc / 4) :: (cc % 4 * 64 + d) :: restBytes)
  | _ => none

/-- base64.b64decode applied to a token string. -/
def b64decode (str : String) : Option (List Nat) :=
  b64DecodeGroups str.data

/-- Whether an int is acceptable to Python's bytes() constructor,
i.e. lies in range(0, 256). -/
def byteOk (c : Int) : Bool :=
  0 ≤ c && c < 256

/-- The payload list built by send_frame's loop:
for x in frame: payload.extend(list(x)). -/
def framePayload : List (Int × Int × Int) → List Int
  | [] => []
  | x :: rest => x.1 :: x.2.1 :: x.2.2 :: framePayload rest

/-- Reading a raw payload byte sequence back into color triples (three
bytes per LED, in order R, G, B). -/
def decodePayload : List Nat → List (Int × Int × Int)
  | r :: g :: b :: rest => ((r : Int), (g : Int), (b : Int)) :: decodePayload rest
  | _ => []

/-- Twinkly.send_frame: validate len(frame) == self.length (raising
ValueError("Invalid frame length") otherwise), then build the header
bytes([0x01]) + bytes(base64.b64decode(self.token)) + bytes([self.length])
and the payload bytes, and send one UDP datagram.  bytes([self.length])
raises ValueError when the count does not fit one byte, and
bytes(payload) raises ValueError when any channel is outside 0..255;
either failure prevents the sendto call. -/
def send_frame (fuel t : Nat) (dev : Device) (s : ClientState)
    (frame : List (Int × Int × Int)) : ClientState × List Ev × Option Err :=
  let lr := lengthProp fuel t dev s
  match lr.2.2 with
  | Except.error e => (lr.1, lr.2.1, some e)
  | Except.ok n =>
    if frame.length ≠ n then (lr.1, lr.2.1, some Err.valueErrorFrameLength)
    else
      let tr := tokenProp fuel t dev lr.1
      match tr.2.2 with
      | Except.error e => (tr.1, lr.2.1 ++ tr.2.1, some e)
      | Except.ok none => (tr.1, lr.2.1 ++ tr.2.1, some Err.typeError)
      | Except.ok (some tokStr) =>
        match b64decode tokStr with
        | none => (tr.1, lr.2.1 ++ tr.2.1, some Err.binasciiError)
        | some tokBytes =>
          if n < 256 then
            if (framePayload frame).all byteOk then
              (tr.1,
               lr.2.1 ++ tr.2.1 ++
                 [Ev.udp (1 :: (tokBytes ++ n :: (framePayload frame).map Int.toNat))],
               none)
            else (tr.1, lr.2.1 ++ tr.2.1, some Err.valueErrorByteRange)
          else (tr.1, lr.2.1 ++ tr.2.1, some Err.valueErrorByteRange)

/-- The frames_number expression of the CLI movie branch:
int(len(movie) / 3 / t.length).  For inputs within double precision the
Python truncated float division agrees with this natural floor division. -/
def framesNumber (movieLen n : Nat) : Nat :=
  movieLen / 3 / n

/-- The movie-upload branch of main (cli.py lines 117-127): read the
movie bytes, build params with frame_delay, leds_number = t.length and
the derived frames_number, set mode to movie, post the movie config,
then upload the raw movie bytes; each response is raise_for_status
checked in turn.  No size validation is performed anywhere. -/
def movieBranch (fuel t : Nat) (dev : Device) (s : ClientState)
    (movie : List Nat) (delay : Int) : ClientState × List Ev × Except Err Unit :=
  let lr := lengthProp fuel t dev s
  match lr.2.2 with
  | Except.error e => (lr.1, lr.2.1, Except.error e)
  | Except.ok n =>
    let m := postOp fuel t dev lr.1 "led/mode" (PostBody.modeSet "movie")
    match m.2.2 with
    | Except.error e => (m.1, lr.2.1 ++ m.2.1, Except.error e)
    | Except.ok false => (m.1, lr.2.1 ++ m.2.1, Except.error Err.httpError)
    | Except.ok true =>
      let c := postOp fuel t dev m.1 "led/movie/config"
        (PostBody.movieConfig delay n (framesNumber movie.length n))
      match c.2.2 with
      | Except.error e => (c.1, lr.2.1 ++ m.2.1 ++ c.2.1, Except.error e)
      | Except.ok false => (c.1, lr.2.1 ++ m.2.1 ++ c.2.1, Except.error Err.httpError)
      | Except.ok true =>
        let u := postOp fuel t dev c.1 "led/movie/full" (PostBody.raw movie)
        match u.2.2 with
        | Except.error e => (u.1, lr.2.1 ++ m.2.1 ++ c.2.1 ++ u.2.1, Except.error e)
        | Except.ok false =>
            (u.1, lr.2.1 ++ m.2.1 ++ c.2.1 ++ u.2.1, Except.error Err.httpError)
        | Except.ok true =>
            (u.1, lr.2.1 ++ m.2.1 ++ c.2.1 ++ u.2.1, Except.ok ())

/-- Iterated calls to ensure_token at a fixed time, accumulating the
requests each call issues. -/
def ensureIter : Nat → Nat → Nat → Device → ClientState → ClientState × List Ev
  | 0, _, _, _, s => (s, [])
  | k + 1, fuel, t, dev, s =>
    let r := ensure_token fuel t dev s
    let r2 := ensureIter k fuel t dev r.1
    (r2.1, r.2.1 ++ r2.2)

/-- A device that answers every request successfully, with token "QUJD"
(base64 of "ABC"), ttl 3600 and 10 LEDs. -/
def dev0 : Device :=
  { loginResp := some ("QUJD", 3600)
  , postStatusOk := fun _ => true
  , getStatusOk := fun _ => true
  , numberOfLed := 10 }

/-- A client state with a future expiry but no stored token, as the
source leaves behind after Twinkly.logout (which clears _token only). -/
def cState2 : ClientState :=
  { expires := some 100, tok := none, lengthCache := none }

/-- The argparse namespace that main sees: the selected command plus,
for each subcommand-specific option, either none (the attribute is
absent from the namespace, so reading it raises AttributeError) or
some v (the attribute is present, possibly holding None). -/
structure ParsedArgs : Type where
  command : Option String
  nameAttr : Option (Option String)
  modeAttr : Option (Option String)
  mqttJsonAttr : Option (Option String)
  movieFileAttr : Option (Option String)
  movieDelayAttr : Option Int
  deriving DecidableEq, Repr

/-- The namespace argparse produces for a given subcommand of the ttls
CLI: only the selected subcommand's own options become attributes. -/
def mkArgs (cmd : String) (nameV modeV mqttV fileV : Option String) (delayV : Int) :
    ParsedArgs :=
  { command := some cmd
  , nameAttr := if cmd = "name" then some nameV else none
  , modeAttr := if cmd = "mode" then some modeV else none
  , mqttJsonAttr := if cmd = "mqtt" then some mqttV else none
  , movieFileAttr := if cmd = "movie" then some fileV else none
  , movieDelayAttr := if cmd = "movie" then some delayV else none }

/-- The Twinkly client operation a CLI invocation dispatches to. -/
inductive ClientCall : Type
  | getName
  | setName (n : String)
  | getNetworkStatus
  | getFirmwareVersion
  | getDetailsCall
  | getMode
  | setMode (m : String)
  | getMqtt
  | getMovieConfig
  | movieUpload (file : String) (delay : Int)
  deriving DecidableEq, Repr

/-- What a CLI invocation does after argument parsing: dispatch to a
client call whose JSON result is printed, or raise an exception.
`attributeError a` models the AttributeError raised on reading the
missing namespace attribute a; `nameErrorRes` models the NameError on
the never-assigned res variable in the mqtt --json branch (whose
set_mqtt result expression is discarded); `jsonDecodeError` models a
json.loads failure; `unknownCommand` models the final fatal
Exception("Unknown command"). -/
inductive CliOutcome : Type
  | ok (c : ClientCall)
  | attributeError (attr : String)
  | nameErrorRes
  | jsonDecodeError
  | unknownCommand
  deriving DecidableEq, Repr

/-- The dispatch chain of main (ttls.py lines 283-314, cli.py lines
100-131): the if/elif chain on args.command.  The source has no branch
for the registered token subcommand (it falls through to the
unknown-command error), and its mqtt --json branch evaluates args.mode
(an attribute the mqtt namespace does not have) and never assigns res. -/
def dispatch (a : ParsedArgs) (jsonLoadsOk : Bool) : CliOutcome :=
  match a.command with
  | some "name" =>
    match a.nameAttr with
    | none => CliOutcome.attributeError "name"
    | some none => CliOutcome.ok ClientCall.getName
    | some (some n) => CliOutcome.ok (ClientCall.setName n)
  | some "network" => CliOutcome.ok ClientCall.getNetworkStatus
  | some "firmware" => CliOutcome.ok ClientCall.getFirmwareVersion
  | some "details" => CliOutcome.ok ClientCall.getDetailsCall
  | some "mode" =>
    match a.modeAttr with
    | none => CliOutcome.attributeError "mode"
    | some none => CliOutcome.ok ClientCall.getMode
    | some (some m) => CliOutcome.ok (ClientCall.setMode m)
  | some "mqtt" =>
    match a.mqttJsonAttr with
    | none => CliOutcome.attributeError "mqtt_json"
    | some none => CliOutcome.ok ClientCall.getMqtt
    | some (some _) =>
      if jsonLoadsOk then
        match a.modeAttr with
        | none => CliOutcome.attributeError "mode"
        | some _ => CliOutcome.nameErrorRes
      else CliOutcome.jsonDecodeError
  | some "movie" =>
    match a.movieFileAttr with
    | none => CliOutcome.attributeError "movie_file"
    | some none => CliOutcome.ok ClientCall.getMovieConfig
    | some (some f) =>
      if f = "" then CliOutcome.ok ClientCall.getMovieConfig
      else
        match a.movieDelayAttr with
        | none => CliOutcome.attributeError "movie_delay"
        | some d => CliOutcome.ok (ClientCall.movieUpload f d)
  | _ => CliOutcome.unknownCommand

/-- A device whose verify response is a failure status while every
other response succeeds; token "QUJD", ttl 3600, 3 LEDs. -/
def dev5 : Device :=
  { loginResp := some ("QUJD", 3600)
  , postStatusOk := fun ep => !(ep == "verify")
  , getStatusOk := fun _ => true
  , numberOfLed := 3 }

/-- A fresh client state (nothing stored) with the LED count cached. -/
def sInit : ClientState := { expires := none, tok := none, lengthCache := some 3 }

/-- The state left behind by a login at virtual time 0 with ttl 3600. -/
def sAfterLogin : ClientState :=
  { expires := some 3600, tok := some "QUJD", lengthCache := some 3 }

/-- An authenticated state holding the token "QUJD" with a cached LED
count of 2. -/
def sFrame : ClientState :=
  { expires := some 100, tok := some "QUJD", lengthCache := some 2 }

/-- An authenticated state with a cached LED count of 3. -/
def sFrame3 : ClientState :=
  { expires := some 100, tok := some "QUJD", lengthCache := some 3 }

/-- An authenticated state with no cached LED count. -/
def sSession : ClientState :=
  { expires := some 100, tok := some "QUJD", lengthCache := none }

/-- An authenticated state whose cached LED count, 300, exceeds the
one-byte datagram field. -/
def sBig : ClientState :=
  { expires := some 100, tok := some "QUJD", lengthCache := some 300 }

/-- A two-LED frame of in-range channels. -/
def frame2 : List (Int × Int × Int) := [(255, 0, 0), (0, 255, 0)]

/-- A 300-LED frame. -/
def frame300 : List (Int × Int × Int) := List.replicate 300 (0, 0, 0)

/-- A two-LED frame containing an out-of-range channel value. -/
def frameBad : List (Int × Int × Int) := [(300, 0, 0), (0, 0, 0)]

/-- A movie buffer of length 8 = 3 * 3 - 1, not divisible by 3 LEDs * 3. -/
def movie8 : List Nat := [0, 0, 0, 0, 0, 0, 0, 0]

/-- A movie buffer of length 9, exactly one frame for 3 LEDs. -/
def movie9 : List Nat := List.replicate 9 0

/-- The expiry condition is false when the stored expiry is strictly in
the future. -/
theorem tokenExpired_of_lt {s : ClientState} {E t : Nat}
    (hE : s.expires = some E) (ht : t < E) : tokenExpired s t = false := by
  simp only [tokenExpired, hE, decide_eq_false_iff_not]
  omega

/-- When ensure_token returns without an exception, the stored expiry is
strictly after the current time. -/
theorem ensure_token_ok_valid :
    ∀ (fuel t : Nat) (dev : Device) (s : ClientState),
      (ensure_token fuel t dev s).2.2 = none →
      tokenExpired (ensure_token fuel t dev s).1 t = false := by
  intro fuel
  induction fuel with
  | zero => intro t dev s h; simp [ensure_token] at h
  | succ fuel ih =>
    intro t dev s h
    rw [ensure_token] at h ⊢
    by_cases hexp : tokenExpired s t = true
    · rw [if_pos hexp] at h ⊢
      cases hl : dev.loginResp with
      | none => simp [login, hl] at h
      | some p =>
        obtain ⟨tk, ttl⟩ := p
        simp only [login, hl] at h ⊢
        cases hr : (ensure_token fuel t dev
            { s with tok := some tk, expires := some (t + ttl) }).2.2 with
        | some e => simp [hr] at h
        | none =>
          have hv := ih t dev { s with tok := some tk, expires := some (t + ttl) } hr
          by_cases hok : dev.postStatusOk "verify" = true
          · simpa [hr, hok] using hv
          · simp [hr, hok] at h
    · rw [if_neg hexp] at h ⊢
      simpa using hexp

/-- Every event that ensure_token emits is either the raw login request
or the verify POST; in particular it emits no UDP datagrams and no
device-facing GET/POST besides verify. -/
theorem ensure_token_events :
    ∀ (fuel t : Nat) (dev : Device) (s : ClientState),
      ∀ e ∈ (ensure_token fuel t dev s).2.1,
        e = Ev.http Req.login ∨ e = Ev.http (Req.post "verify" PostBody.empty) := by
  intro fuel
  induction fuel with
  | zero => intro t dev s e he; simp [ensure_token] at he
  | succ fuel ih =>
    intro t dev s e he
    rw [ensure_token] at he
    by_cases hexp : tokenExpired s t = true
    · rw [if_pos hexp] at he
      cases hl : dev.loginResp with
      | none =>
        simp [login, hl] at he
        exact Or.inl he
      | some p =>
        obtain ⟨tk, ttl⟩ := p
        simp only [login, hl] at he
        cases hr : (ensure_token fuel t dev
            { s with tok := some tk, expires := some (t + ttl) }).2.2 with
        | some e2 =>
          simp only [hr, List.mem_cons, List.cons_append, List.nil_append,
            List.mem_append] at he
          rcases he with he | he
          · exact Or.inl he
          · exact ih _ _ _ e he
        | none =>
          by_cases hok : dev.postStatusOk "verify" = true
          · simp only [hr, hok, if_true, List.cons_append, List.nil_append,
              List.mem_cons, List.mem_append, List.mem_singleton] at he
            rcases he with he | he | he
            · exact Or.inl he
            · exact ih _ _ _ e he
            · simp only [List.not_mem_nil, or_false] at he
              exact Or.inr he
          · simp only [hr, hok, if_false, Bool.false_eq_true, List.cons_append,
              List.nil_append, List.mem_cons, List.mem_append,
              List.mem_singleton] at he
            rcases he with he | he | he
            · exact Or.inl he
            · exact ih _ _ _ e he
            · simp only [List.not_mem_nil, or_false] at he
              exact Or.inr he
    · rw [if_neg hexp] at he
      simp at he

/-- Whenever ensure_token has issued the verify POST, the state it
returns has an expiry strictly after the current time (the verify
request is only issued after a successful nested ensure_token). -/
theorem ensure_token_verify_valid :
    ∀ (fuel t : Nat) (dev : Device) (s : ClientState),
      Ev.http (Req.post "verify" PostBody.empty) ∈ (ensure_token fuel t dev s).2.1 →
      tokenExpired (ensure_token fuel t dev s).1 t = false := by
  intro fuel
  induction fuel with
  | zero => intro t dev s he; simp [ensure_token] at he
  | succ fuel ih =>
    intro t dev s he
    rw [ensure_token] at he ⊢
    by_cases hexp : tokenExpired s t = true
    · rw [if_pos hexp] at he ⊢
      cases hl : dev.loginResp with
      | none => simp [login, hl] at he
      | some p =>
        obtain ⟨tk, ttl⟩ := p
        simp only [login, hl] at he ⊢
        cases hr : (ensure_token fuel t dev
            { s with tok := some tk, expires := some (t + ttl) }).2.2 with
        | some e2 =>
          simp only [hr, List.cons_append, List.nil_append, List.mem_cons] at he ⊢
          rcases he with he | he
          · exact absurd he (by simp)
          · exact ih _ _ _ he
        | none =>
          have hv := ensure_token_ok_valid fuel t dev
            { s with tok := some tk, expires := some (t + ttl) } hr
          by_cases hok : dev.postStatusOk "verify" = true
          · simpa [hr, hok] using hv
          · simpa [hr, hok] using hv
    · rw [if_neg hexp] at he
      simp at he

/-- With a strictly-future expiry, ensure_token is a no-op: no requests,
state returned unchanged. -/
theorem ensure_token_valid_noop (fuel t : Nat) (dev : Device) (s : ClientState)
    (h : tokenExpired s t = false) :
    ensure_token (fuel + 1) t dev s = (s, [], none) := by
  rw [ensure_token, if_neg (by simp [h])]

/-- When the expiry condition holds and the device answers login with a
token and a positive ttl, ensure_token performs exactly one login and
one verify request, installs the token, and sets the expiry to now + ttl;
the overall result is an error exactly when the verify response status
is a failure. -/
theorem ensure_token_renew (fuel t : Nat) (dev : Device) (s : ClientState)
    (tk : String) (ttl : Nat) (hl : dev.loginResp = some (tk, ttl)) (httl : 0 < ttl)
    (hexp : tokenExpired s t = true) :
    ensure_token (fuel + 2) t dev s =
      ({ s with tok := some tk, expires := some (t + ttl) },
       [Ev.http Req.login, Ev.http (Req.post "verify" PostBody.empty)],
       if dev.postStatusOk "verify" then none else some Err.httpError) := by
  have hvalid : tokenExpired { s with tok := some tk, expires := some (t + ttl) } t = false :=
    tokenExpired_of_lt rfl (by omega)
  have hinner := ensure_token_valid_noop fuel t dev
    { s with tok := some tk, expires := some (t + ttl) } hvalid
  show ensure_token (fuel + 1 + 1) t dev s = _
  rw [ensure_token, if_pos hexp]
  simp only [login, hl, hinner]
  by_cases hok : dev.postStatusOk "verify" = true <;> simp [hok]

/-- The payload holds exactly three channel bytes per frame triple. -/
theorem framePayload_length : ∀ (frame : List (Int × Int × Int)),
    (framePayload frame).length = 3 * frame.length := by
  intro frame
  induction frame with
  | nil => rfl
  | cons x xs ih =>
    simp only [framePayload, List.length_cons, ih]
    omega

/-- Decoding the payload portion in groups of three bytes recovers the
original frame, provided the channels were nonnegative. -/
theorem decodePayload_framePayload :
    ∀ (frame : List (Int × Int × Int)),
      (∀ c ∈ framePayload frame, 0 ≤ c) →
      decodePayload ((framePayload frame).map Int.toNat) = frame := by
  intro frame
  induction frame with
  | nil => intro _; rfl
  | cons x xs ih =>
    intro h
    obtain ⟨r, g, b⟩ := x
    have hr : (0 : Int) ≤ r := h r (by simp [framePayload])
    have hg : (0 : Int) ≤ g := h g (by simp [framePayload])
    have hb : (0 : Int) ≤ b := h b (by simp [framePayload])
    have hrest : ∀ c ∈ framePayload xs, (0 : Int) ≤ c := fun c hc =>
      h c (by simp [framePayload, hc])
    simp [framePayload, decodePayload, ih hrest, Int.toNat_of_nonneg hr,
      Int.toNat_of_nonneg hg, Int.toNat_of_nonneg hb]

/-- Every event emitted by _get is an HTTP request (never a datagram). -/
theorem getOp_events_http (fuel t : Nat) (dev : Device) (s : ClientState) (ep : String) :
    ∀ e ∈ (getOp fuel t dev s ep).2.1, ∃ r, e = Ev.http r := by
  intro e he
  rw [getOp] at he
  cases hr : (ensure_token fuel t dev s).2.2 with
  | some err =>
    simp only [hr] at he
    rcases ensure_token_events fuel t dev s e he with h | h <;> exact ⟨_, h⟩
  | none =>
    simp only [hr, List.mem_append, List.mem_singleton] at he
    rcases he with h | h
    · rcases ensure_token_events fuel t dev s e h with h2 | h2 <;> exact ⟨_, h2⟩
    · exact ⟨_, h⟩

/-- Every event emitted by _post is an HTTP request (never a datagram). -/
theorem postOp_events_http (fuel t : Nat) (dev : Device) (s : ClientState)
    (ep : String) (body : PostBody) :
    ∀ e ∈ (postOp fuel t dev s ep body).2.1, ∃ r, e = Ev.http r := by
  intro e he
  rw [postOp] at he
  cases hr : (ensure_token fuel t dev s).2.2 with
  | some err =>
    simp only [hr] at he
    rcases ensure_token_events fuel t dev s e he with h | h <;> exact ⟨_, h⟩
  | none =>
    simp only [hr, List.mem_append, List.mem_singleton] at he
    rcases he with h | h
    · rcases ensure_token_events fuel t dev s e h with h2 | h2 <;> exact ⟨_, h2⟩
    · exact ⟨_, h⟩

/-- Every event emitted by get_details is an HTTP request. -/
theorem get_details_events_http (fuel t : Nat) (dev : Device) (s : ClientState) :
    ∀ e ∈ (get_details fuel t dev s).2.1, ∃ r, e = Ev.http r := by
  intro e he
  rw [get_details] at he
  cases hr : (getOp fuel t dev s "gestalt").2.2 with
  | error err =>
    simp only [hr] at he
    exact getOp_events_http fuel t dev s "gestalt" e he
  | ok b =>
    cases b <;> simp only [hr] at he <;>
      exact getOp_events_http fuel t dev s "gestalt" e he

/-- Every event emitted by the length property is an HTTP request. -/
theorem lengthProp_events_http (fuel t : Nat) (dev : Device) (s : ClientState) :
    ∀ e ∈ (lengthProp fuel t dev s).2.1, ∃ r, e = Ev.http r := by
  intro e he
  rw [lengthProp] at he
  cases hc : s.lengthCache with
  | some n => simp only [hc] at he; simp at he
  | none =>
    cases hr : (get_details fuel t dev s).2.2 with
    | error err =>
      simp only [hc, hr] at he
      exact get_details_events_http fuel t dev s e he
    | ok n =>
      simp only [hc, hr] at he
      exact get_details_events_http fuel t dev s e he

/-- Every event emitted by the token property is an HTTP request. -/
theorem tokenProp_events_http (fuel t : Nat) (dev : Device) (s : ClientState) :
    ∀ e ∈ (tokenProp fuel t dev s).2.1, ∃ r, e = Ev.http r := by
  intro e he
  rw [tokenProp] at he
  cases hr : (ensure_token fuel t dev s).2.2 with
  | some err =>
    simp only [hr] at he
    rcases ensure_token_events fuel t dev s e he with h | h <;> exact ⟨_, h⟩
  | none =>
    simp only [hr] at he
    rcases ensure_token_events fuel t dev s e he with h | h <;> exact ⟨_, h⟩

/-- C1: A device-facing request issued through the _get or _post helper
is never sent while the stored expiry is at or before the current time:
each helper runs ensure_token first, the dependent request appears in
the emitted trace exactly when ensure_token completed without an
exception, and in that case the client state carried at send time has a
strictly-future expiry; the verify POST that ensure_token itself issues
through _post likewise only ever appears with a strictly-future expiry
in the resulting state. -/
theorem c1_requests_only_with_valid_token
    (fuel t : Nat) (dev : Device) (s : ClientState) (ep : String) (body : PostBody)
    (hep : ep ≠ "verify") :
    ((Ev.http (Req.get ep) ∈ (getOp fuel t dev s ep).2.1) ↔
        (getOp fuel t dev s ep).2.2 = Except.ok (dev.getStatusOk ep)) ∧
    (Ev.http (Req.get ep) ∈ (getOp fuel t dev s ep).2.1 →
        tokenExpired (getOp fuel t dev s ep).1 t = false) ∧
    ((Ev.http (Req.post ep body) ∈ (postOp fuel t dev s ep body).2.1) ↔
        (postOp fuel t dev s ep body).2.2 = Except.ok (dev.postStatusOk ep)) ∧
    (Ev.http (Req.post ep body) ∈ (postOp fuel t dev s ep body).2.1 →
        tokenExpired (postOp fuel t dev s ep body).1 t = false) ∧
    (Ev.http (Req.post "verify" PostBody.empty) ∈ (ensure_token fuel t dev s).2.1 →
        tokenExpired (ensure_token fuel t dev s).1 t = false) := by
  refine ⟨?_, ?_, ?_, ?_, ensure_token_verify_valid fuel t dev s⟩
  · rw [getOp]
    cases hr : (ensure_token fuel t dev s).2.2 with
    | some err =>
      simp only [hr]
      constructor
      · intro hmem
        rcases ensure_token_events fuel t dev s _ hmem with h | h <;> simp at h
      · intro hcontra
        exact absurd hcontra (by simp)
    | none => simp [hr]
  · rw [getOp]
    cases hr : (ensure_token fuel t dev s).2.2 with
    | some err =>
      simp only [hr]
      intro hmem
      rcases ensure_token_events fuel t dev s _ hmem with h | h <;> simp at h
    | none =>
      simp only [hr]
      intro _
      exact ensure_token_ok_valid fuel t dev s hr
  · rw [postOp]
    cases hr : (ensure_token fuel t dev s).2.2 with
    | some err =>
      simp only [hr]
      constructor
      · intro hmem
        rcases ensure_token_events fuel t dev s _ hmem with h | h
        · simp at h
        · simp only [Ev.http.injEq, Req.post.injEq] at h
          exact absurd h.1 hep
      · intro hcontra
        exact absurd hcontra (by simp)
    | none => simp [hr]
  · rw [postOp]
    cases hr : (ensure_token fuel t dev s).2.2 with
    | some err =>
      simp only [hr]
      intro hmem
      rcases ensure_token_events fuel t dev s _ hmem with h | h
      · simp at h
      · simp only [Ev.http.injEq, Req.post.injEq] at h
        exact absurd h.1 hep
    | none =>
      simp only [hr]
      intro _
      exact ensure_token_ok_valid fuel t dev s hr

/-- C1 witness: at a concrete state with a future expiry, the gestalt
GET is issued and the state at send time is unexpired. -/
theorem c1_witness :
    ("gestalt" : String) ≠ "verify" ∧
    Ev.http (Req.get "gestalt") ∈ (getOp 2 0 dev0 cState2 "gestalt").2.1 ∧
    tokenExpired (getOp 2 0 dev0 cState2 "gestalt").1 0 = false :=
  ⟨by decide, by decide,
   (c1_requests_only_with_valid_token 2 0 dev0 cState2 "gestalt" PostBody.empty
      (by decide)).2.1 (by decide)⟩

/-- Whenever send_frame has emitted a UDP datagram, every channel value
of the frame was within range(0, 256): the datagram append is guarded by
the bytes() range check on the payload. -/
theorem send_frame_udp_channels (fuel t : Nat) (dev : Device) (s : ClientState)
    (frame : List (Int × Int × Int)) :
    ∀ d, Ev.udp d ∈ (send_frame fuel t dev s frame).2.1 →
      (framePayload frame).all byteOk = true := by
  intro d hd
  simp only [send_frame] at hd
  cases hlr : (lengthProp fuel t dev s).2.2 with
  | error e =>
    simp only [hlr] at hd
    obtain ⟨r, hr⟩ := lengthProp_events_http fuel t dev s _ hd
    simp at hr
  | ok n =>
    simp only [hlr] at hd
    by_cases hfr : frame.length = n
    · rw [if_neg (fun hcon => hcon hfr)] at hd
      cases htr : (tokenProp fuel t dev (lengthProp fuel t dev s).1).2.2 with
      | error e =>
        simp only [htr, List.mem_append] at hd
        rcases hd with h | h
        · obtain ⟨r, hr⟩ := lengthProp_events_http fuel t dev s _ h
          simp at hr
        · obtain ⟨r, hr⟩ := tokenProp_events_http fuel t dev _ _ h
          simp at hr
      | ok opt =>
        cases opt with
        | none =>
          simp only [htr, List.mem_append] at hd
          rcases hd with h | h
          · obtain ⟨r, hr⟩ := lengthProp_events_http fuel t dev s _ h
            simp at hr
          · obtain ⟨r, hr⟩ := tokenProp_events_http fuel t dev _ _ h
            simp at hr
        | some tokStr =>
          cases hb : b64decode tokStr with
          | none =>
            simp only [htr, hb, List.mem_append] at hd
            rcases hd with h | h
            · obtain ⟨r, hr⟩ := lengthProp_events_http fuel t dev s _ h
              simp at hr
            · obtain ⟨r, hr⟩ := tokenProp_events_http fuel t dev _ _ h
              simp at hr
          | some tokBytes =>
            simp only [htr, hb] at hd
            by_cases hlt : n < 256
            · rw [if_pos hlt] at hd
              by_cases hall : (framePayload frame).all byteOk = true
              · exact hall
              · rw [if_neg (by simpa using hall)] at hd
                simp only [List.mem_append] at hd
                rcases hd with h | h
                · obtain ⟨r, hr⟩ := lengthProp_events_http fuel t dev s _ h
                  simp at hr
                · obtain ⟨r, hr⟩ := tokenProp_events_http fuel t dev _ _ h
                  simp at hr
            · rw [if_neg hlt] at hd
              simp only [List.mem_append] at hd
              rcases hd with h | h
              · obtain ⟨r, hr⟩ := lengthProp_events_http fuel t dev s _ h
                simp at hr
              · obtain ⟨r, hr⟩ := tokenProp_events_http fuel t dev _ _ h
                simp at hr
    · rw [if_pos hfr] at hd
      obtain ⟨r, hr⟩ := lengthProp_events_http fuel t dev s _ hd
      simp at hr

/-- When the frame has the cached length but some channel is out of
range, send_frame ends in an exception. -/
theorem send_frame_err_of_bad_channel (fuel t : Nat) (dev : Device) (s : ClientState)
    (frame : List (Int × Int × Int)) (n : Nat) (hlen : s.lengthCache = some n)
    (hfr : frame.length = n) (hall : (framePayload frame).all byteOk = false) :
    (send_frame fuel t dev s frame).2.2.isSome = true := by
  simp only [send_frame, lengthProp, hlen]
  rw [if_neg (fun hcon => hcon hfr)]
  cases htr : (tokenProp fuel t dev s).2.2 with
  | error e => simp [htr]
  | ok opt =>
    cases opt with
    | none => simp [htr]
    | some tokStr =>
      cases hb : b64decode tokStr with
      | none => simp [htr, hb]
      | some tokBytes =>
        simp only [htr, hb]
        by_cases hlt : n < 256
        · rw [if_pos hlt, if_neg (by simp [hall])]
          simp
        · rw [if_neg hlt]
          simp

/-- C3: With the LED count cached as n, a frame of exactly n in-range
triples, and a decodable stored token under a still-valid session,
send_frame deterministically emits exactly one UDP datagram equal to
0x01 followed by the base64-decoded token bytes, one byte holding the
LED count, and the 3n channel bytes in LED order; its total length is
1 + len(decoded token) + 1 + 3n, and decoding the payload portion back
into triples yields the original frame. -/
theorem c3_datagram_layout (fuel t : Nat) (dev : Device) (s : ClientState) (n E : Nat)
    (frame : List (Int × Int × Int)) (tokStr : String) (tokBytes : List Nat)
    (hlen : s.lengthCache = some n) (hfr : frame.length = n) (hn : n < 256)
    (htok : s.tok = some tokStr) (hdec : b64decode tokStr = some tokBytes)
    (hexp : s.expires = some E) (ht : t < E)
    (hch : (framePayload frame).all byteOk = true) :
    send_frame (fuel + 1) t dev s frame =
      (s, [Ev.udp (1 :: (tokBytes ++ n :: (framePayload frame).map Int.toNat))], none) ∧
    (1 :: (tokBytes ++ n :: (framePayload frame).map Int.toNat)).length =
      1 + tokBytes.length + 1 + 3 * n ∧
    decodePayload ((framePayload frame).map Int.toNat) = frame := by
  have hval := tokenExpired_of_lt hexp ht
  have hnoop := ensure_token_valid_noop fuel t dev s hval
  have hnn : ∀ c ∈ framePayload frame, (0 : Int) ≤ c := by
    intro c hc
    have h2 := List.all_eq_true.mp hch c hc
    simp only [byteOk, Bool.and_eq_true, decide_eq_true_eq] at h2
    exact h2.1
  refine ⟨?_, ?_, decodePayload_framePayload frame hnn⟩
  · simp only [send_frame, lengthProp, hlen]
    rw [if_neg (fun hcon => hcon hfr)]
    simp [tokenProp, hnoop, htok, hdec, hn, hch]
  · simp only [List.length_cons, List.length_append, List.length_map,
      framePayload_length, hfr]
    omega

/-- C3 witness: a concrete two-LED frame with token "QUJD" produces the
datagram 0x01, 65, 66, 67, 2, then the six channel bytes. -/
theorem c3_witness :
    sFrame.lengthCache = some 2 ∧ sFrame.tok = some "QUJD" ∧
    b64decode "QUJD" = some [65, 66, 67] ∧
    (framePayload frame2).all byteOk = true ∧
    send_frame 1 0 dev0 sFrame frame2 =
      (sFrame, [Ev.udp [1, 65, 66, 67, 2, 255, 0, 0, 0, 255, 0]], none) ∧
    decodePayload ((framePayload frame2).map Int.toNat) = frame2 :=
  ⟨rfl, rfl, by rfl, by decide,
   by
     have h := (c3_datagram_layout 0 0 dev0 sFrame 2 100 frame2 "QUJD" [65, 66, 67]
       rfl rfl (by decide) rfl (by rfl) rfl (by decide) (by decide)).1
     simpa [frame2, framePayload] using h,
   (c3_datagram_layout 0 0 dev0 sFrame 2 100 frame2 "QUJD" [65, 66, 67]
       rfl rfl (by decide) rfl (by rfl) rfl (by decide) (by decide)).2.2⟩

/-- C4: With the LED count cached, a frame whose length differs from it
makes send_frame raise the invalid-frame-length ValueError with an empty
event trace: no UDP datagram and no HTTP request is issued by that
call. -/
theorem c4_frame_length_rejected (fuel t : Nat) (dev : Device) (s : ClientState)
    (n : Nat) (frame : List (Int × Int × Int)) (hlen : s.lengthCache = some n)
    (hne : frame.length ≠ n) :
    send_frame fuel t dev s frame = (s, [], some Err.valueErrorFrameLength) := by
  simp only [send_frame, lengthProp, hlen]
  rw [if_pos hne]

set_option maxRecDepth 10000 in
/-- C4 witness: a two-LED frame against a cached count of 3 is rejected
with no events, both for the too-short direction and (via frame300
against count 3) the too-long direction. -/
theorem c4_witness :
    sFrame3.lengthCache = some 3 ∧ frame2.length ≠ 3 ∧ frame300.length ≠ 3 ∧
    send_frame 1 0 dev0 sFrame3 frame2 = (sFrame3, [], some Err.valueErrorFrameLength) ∧
    send_frame 1 0 dev0 sFrame3 frame300 = (sFrame3, [], some Err.valueErrorFrameLength) :=
  ⟨rfl, by decide, by decide,
   c4_frame_length_rejected 1 0 dev0 sFrame3 3 frame2 rfl (by decide),
   c4_frame_length_rejected 1 0 dev0 sFrame3 3 frame300 rfl (by decide)⟩

/-- C8: When the cached LED count exceeds 255, send_frame always ends in
an exception (the count byte cannot be built by bytes([self.length]),
or an earlier check fails first) and never emits a UDP datagram: the
count byte is neither wrapped nor truncated. -/
theorem c8_count_byte_cap (fuel t : Nat) (dev : Device) (s : ClientState)
    (n : Nat) (frame : List (Int × Int × Int)) (hlen : s.lengthCache = some n)
    (hn : 255 < n) :
    (send_frame fuel t dev s frame).2.2.isSome = true ∧
    ∀ d, Ev.udp d ∉ (send_frame fuel t dev s frame).2.1 := by
  constructor
  · by_cases hfr : frame.length = n
    · simp only [send_frame, lengthProp, hlen]
      rw [if_neg (fun hcon => hcon hfr)]
      cases htr : (tokenProp fuel t dev s).2.2 with
      | error e => simp [htr]
      | ok opt =>
        cases opt with
        | none => simp [htr]
        | some tokStr =>
          cases hb : b64decode tokStr with
          | none => simp [htr, hb]
          | some tokBytes =>
            simp only [htr, hb]
            rw [if_neg (by omega)]
            simp
    · simp only [send_frame, lengthProp, hlen]
      rw [if_pos hfr]
      simp
  · intro d hd
    have hall := send_frame_udp_channels fuel t dev s frame d hd
    -- a datagram implies the success branch, which requires n < 256;
    -- rule that out by rerunning the branch analysis
    simp only [send_frame, lengthProp, hlen] at hd
    by_cases hfr : frame.length = n
    · rw [if_neg (fun hcon => hcon hfr)] at hd
      cases htr : (tokenProp fuel t dev s).2.2 with
      | error e =>
        simp only [htr, List.nil_append] at hd
        obtain ⟨r, hr⟩ := tokenProp_events_http fuel t dev s _ hd
        simp at hr
      | ok opt =>
        cases opt with
        | none =>
          simp only [htr, List.nil_append] at hd
          obtain ⟨r, hr⟩ := tokenProp_events_http fuel t dev s _ hd
          simp at hr
        | some tokStr =>
          cases hb : b64decode tokStr with
          | none =>
            simp only [htr, hb, List.nil_append] at hd
            obtain ⟨r, hr⟩ := tokenProp_events_http fuel t dev s _ hd
            simp at hr
          | some tokBytes =>
            simp only [htr, hb] at hd
            rw [if_neg (by omega)] at hd
            simp only [List.nil_append] at hd
            obtain ⟨r, hr⟩ := tokenProp_events_http fuel t dev s _ hd
            simp at hr
    · rw [if_pos hfr] at hd
      simp at hd

set_option maxRecDepth 10000 in
/-- C8 witness: a cached count of 300 with a matching 300-LED frame
yields an exception and an empty event trace (no datagram sent). -/
theorem c8_witness :
    sBig.lengthCache = some 300 ∧ 255 < 300 ∧
    (send_frame 1 0 dev0 sBig frame300).2.2.isSome = true ∧
    (send_frame 1 0 dev0 sBig frame300).2.1 = [] :=
  ⟨rfl, by decide,
   (c8_count_byte_cap 1 0 dev0 sBig 300 frame300 rfl (by decide)).1,
   by decide⟩

/-- C10: With a correct-length frame containing a channel value outside
range(0, 256), send_frame raises the bytes() ValueError during payload
conversion and emits no UDP datagram; conversely, any emitted datagram
certifies that every channel value of every triple was in 0..255. -/
theorem c10_channel_range (fuel t : Nat) (dev : Device) (s : ClientState)
    (frame : List (Int × Int × Int)) :
    (∀ n, s.lengthCache = some n → frame.length = n →
       (framePayload frame).all byteOk = false →
       (send_frame fuel t dev s frame).2.2.isSome = true ∧
       ∀ d, Ev.udp d ∉ (send_frame fuel t dev s frame).2.1) ∧
    (∀ d, Ev.udp d ∈ (send_frame fuel t dev s frame).2.1 →
       (framePayload frame).all byteOk = true) := by
  constructor
  · intro n hlen hfr hall
    refine ⟨send_frame_err_of_bad_channel fuel t dev s frame n hlen hfr hall, ?_⟩
    intro d hd
    have h := send_frame_udp_channels fuel t dev s frame d hd
    rw [hall] at h
    exact Bool.false_ne_true h
  · exact send_frame_udp_channels fuel t dev s frame

/-- C10 witness: the frame with channel value 300 is rejected with an
exception and no events; in particular no datagram is sent. -/
theorem c10_witness :
    sFrame.lengthCache = some 2 ∧ frameBad.length = 2 ∧
    (framePayload frameBad).all byteOk = false ∧
    (send_frame 1 0 dev0 sFrame frameBad).2.2.isSome = true ∧
    (send_frame 1 0 dev0 sFrame frameBad).2.1 = [] :=
  ⟨rfl, rfl, by decide,
   ((c10_channel_range 1 0 dev0 sFrame frameBad).1 2 rfl rfl (by decide)).1,
   by decide⟩

/-- C2 counterexample: in the state Twinkly.logout leaves behind (no
stored token but a future stored expiry), ensure_token at time 0
performs no login or verify request at all, although no token exists —
refuting renewal happening exactly when no token exists or the stored
expiry has passed. -/
theorem c2_counterexample :
    cState2.tok = none ∧ ensure_token 2 0 dev0 cState2 = (cState2, [], none) :=
  ⟨rfl, by decide⟩

/-- C2 (amended): ensure_token performs the full login+verify protocol
exactly when no stored expiry exists or the stored expiry is at or
before the current time — the presence of the token itself is not
consulted — and is a no-op otherwise.  A login at time T with returned
ttl sets the expiry to T + ttl; with a stored expiry T + 3600, a call
at T + 3601 or exactly at T + 3600 renews, a call at T + 3599 performs
no requests and reuses the cached state verbatim; repeating the call
with a still-valid token any number of times issues no requests. -/
theorem c2_renewal_condition (fuel T E : Nat) (dev : Device) (s : ClientState)
    (tk : String) (ttl : Nat) (hl : dev.loginResp = some (tk, ttl))
    (hv : dev.postStatusOk "verify" = true) (httl : 0 < ttl) :
    (tokenExpired s T = true →
       ensure_token (fuel + 2) T dev s =
         ({ s with tok := some tk, expires := some (T + ttl) },
          [Ev.http Req.login, Ev.http (Req.post "verify" PostBody.empty)], none)) ∧
    (s.expires = some E → T < E → ensure_token (fuel + 2) T dev s = (s, [], none)) ∧
    (s.expires = some (T + 3600) →
       ensure_token (fuel + 2) (T + 3601) dev s =
         ({ s with tok := some tk, expires := some (T + 3601 + ttl) },
          [Ev.http Req.login, Ev.http (Req.post "verify" PostBody.empty)], none) ∧
       ensure_token (fuel + 2) (T + 3600) dev s =
         ({ s with tok := some tk, expires := some (T + 3600 + ttl) },
          [Ev.http Req.login, Ev.http (Req.post "verify" PostBody.empty)], none) ∧
       ensure_token (fuel + 2) (T + 3599) dev s = (s, [], none)) ∧
    (s.expires = some E → T < E → ∀ k, ensureIter k (fuel + 2) T dev s = (s, [])) := by
  have renew : ∀ t2, tokenExpired s t2 = true →
      ensure_token (fuel + 2) t2 dev s =
        ({ s with tok := some tk, expires := some (t2 + ttl) },
         [Ev.http Req.login, Ev.http (Req.post "verify" PostBody.empty)], none) := by
    intro t2 hexp
    rw [ensure_token_renew fuel t2 dev s tk ttl hl httl hexp, hv]
    simp
  have noop : ∀ t2, s.expires = some E → t2 < E →
      ensure_token (fuel + 2) t2 dev s = (s, [], none) := fun t2 hE ht2 =>
    ensure_token_valid_noop (fuel + 1) t2 dev s (tokenExpired_of_lt hE ht2)
  refine ⟨renew T, noop T, ?_, ?_⟩
  · intro hE
    refine ⟨renew (T + 3601) ?_, renew (T + 3600) ?_, ?_⟩
    · simp only [tokenExpired, hE, decide_eq_true_eq]
      omega
    · simp only [tokenExpired, hE, decide_eq_true_eq]
      omega
    · exact ensure_token_valid_noop (fuel + 1) (T + 3599) dev s
        (tokenExpired_of_lt hE (by omega))
  · intro hE hT k
    induction k with
    | zero => rfl
    | succ k ih =>
      simp only [ensureIter, noop T hE hT, ih]
      rfl

/-- C2 witness: with the all-success device, a client whose stored
expiry has passed is renewed at time 0: the token "QUJD" is installed
with expiry 3600 after exactly one login and one verify request. -/
theorem c2_witness :
    dev0.loginResp = some ("QUJD", 3600) ∧ dev0.postStatusOk "verify" = true ∧
    0 < 3600 ∧
    ensure_token 2 0 dev0 { expires := none, tok := none, lengthCache := none } =
      ({ expires := some 3600, tok := some "QUJD", lengthCache := none },
       [Ev.http Req.login, Ev.http (Req.post "verify" PostBody.empty)], none) :=
  ⟨rfl, rfl, by decide, by
    have h := (c2_renewal_condition 0 0 100 dev0
      { expires := none, tok := none, lengthCache := none } "QUJD" 3600 rfl rfl
      (by decide)).1 rfl
    simpa using h⟩

/-- C5 counterexample: with a device that accepts login but rejects
verify, ensure_token from a fresh state raises a single HTTP error, yet
the token and expiry installed by login stay in place, and the next
device-facing operation (one time unit later) simply issues its GET with
that token — no renewal, the session is treated as authenticated. -/
theorem c5_counterexample :
    ensure_token 2 0 dev5 sInit =
      (sAfterLogin, [Ev.http Req.login, Ev.http (Req.post "verify" PostBody.empty)],
       some Err.httpError) ∧
    sAfterLogin.tok = some "QUJD" ∧
    getOp 2 1 dev5 sAfterLogin "gestalt" =
      (sAfterLogin, [Ev.http (Req.get "gestalt")], Except.ok true) :=
  ⟨by decide, rfl, by rfl⟩

/-- C5 (amended): if login succeeds but the subsequent verify fails,
ensure_token surfaces a single HTTP error to the caller; however the
token and expiry stored by login remain installed, and any later
ensure_token call before that expiry is a no-op that reuses the token
as if the session were authenticated. -/
theorem c5_verify_failure_keeps_token (fuel T : Nat) (dev : Device) (s : ClientState)
    (tk : String) (ttl : Nat) (hl : dev.loginResp = some (tk, ttl)) (httl : 0 < ttl)
    (hv : dev.postStatusOk "verify" = false) (hexp : tokenExpired s T = true) :
    ensure_token (fuel + 2) T dev s =
      ({ s with tok := some tk, expires := some (T + ttl) },
       [Ev.http Req.login, Ev.http (Req.post "verify" PostBody.empty)],
       some Err.httpError) ∧
    (∀ t2, t2 < T + ttl →
       ensure_token (fuel + 2) t2 dev { s with tok := some tk, expires := some (T + ttl) } =
         ({ s with tok := some tk, expires := some (T + ttl) }, [], none)) := by
  constructor
  · rw [ensure_token_renew fuel T dev s tk ttl hl httl hexp, hv]
    simp
  · intro t2 ht2
    exact ensure_token_valid_noop (fuel + 1) t2 dev _ (tokenExpired_of_lt rfl ht2)

/-- C5 witness: the concrete verify-rejecting device dev5 at time 0. -/
theorem c5_witness :
    dev5.loginResp = some ("QUJD", 3600) ∧ dev5.postStatusOk "verify" = false ∧
    tokenExpired sInit 0 = true ∧
    ensure_token 2 0 dev5 sInit =
      (sAfterLogin, [Ev.http Req.login, Ev.http (Req.post "verify" PostBody.empty)],
       some Err.httpError) :=
  ⟨rfl, by decide, rfl, by
    have h := (c5_verify_failure_keeps_token 0 0 dev5 sInit "QUJD" 3600 rfl (by decide)
      (by decide) rfl).1
    simpa [sInit, sAfterLogin] using h⟩

/-- C7 counterexample: logout from an authenticated state clears the
stored token but not the stored expiry, so one time unit later
ensure_token is a no-op — no fresh login+verify is performed even though
no token is installed. -/
theorem c7_counterexample :
    logout 2 0 dev0 sSession =
      (cState2, [Ev.http (Req.post "logout" PostBody.empty)], Except.ok ()) ∧
    cState2.tok = none ∧
    ensure_token 2 1 dev0 cState2 = (cState2, [], none) :=
  ⟨by rfl, rfl, by decide⟩

/-- C7 (amended): logout sends the logout request and, on a success
status, clears the stored token; it does not clear the stored expiry,
so any later ensure_token call before that expiry is a no-op — it does
not perform a fresh login+verify even though no token is installed. -/
theorem c7_logout_leaves_expiry (fuel t : Nat) (dev : Device) (s : ClientState)
    (E : Nat) (hok : dev.postStatusOk "logout" = true)
    (hexp : s.expires = some E) (ht : t < E) :
    logout (fuel + 1) t dev s =
      ({ s with tok := none }, [Ev.http (Req.post "logout" PostBody.empty)],
       Except.ok ()) ∧
    (∀ t2, t2 < E →
       ensure_token (fuel + 1) t2 dev { s with tok := none } =
         ({ s with tok := none }, [], none)) := by
  have hnoop := ensure_token_valid_noop fuel t dev s (tokenExpired_of_lt hexp ht)
  constructor
  · simp [logout, postOp, hnoop, hok]
  · intro t2 ht2
    exact ensure_token_valid_noop fuel t2 dev _ (tokenExpired_of_lt hexp ht2)

/-- C7 witness: the concrete session state at time 0 with the
all-success device. -/
theorem c7_witness :
    dev0.postStatusOk "logout" = true ∧ sSession.expires = some 100 ∧
    logout 1 0 dev0 sSession =
      (cState2, [Ev.http (Req.post "logout" PostBody.empty)], Except.ok ()) :=
  ⟨rfl, rfl, by
    have h := (c7_logout_leaves_expiry 0 0 dev0 sSession 100 rfl rfl (by decide)).1
    simpa [sSession, cState2] using h⟩

/-- C6 counterexample: with LED count 3 cached and a movie buffer of
length 8 = 3 * 3 - 1 (not divisible by 9), the movie branch performs no
rejection: it posts the mode change, posts a movie config with derived
frames_number 0, and then issues the upload request, finishing without
any error — there is no MovieSizeError check before upload. -/
theorem c6_counterexample :
    movie8.length = 3 * 3 - 1 ∧
    movieBranch 2 0 dev0 sFrame3 movie8 100 =
      (sFrame3,
       [Ev.http (Req.post "led/mode" (PostBody.modeSet "movie")),
        Ev.http (Req.post "led/movie/config" (PostBody.movieConfig 100 3 0)),
        Ev.http (Req.post "led/movie/full" (PostBody.raw movie8))],
       Except.ok ()) :=
  ⟨rfl, by rfl⟩

/-- C6 (amended): the movie upload path performs no divisibility
validation: for any buffer it derives frames_number as the truncated
division len // 3 // N and always proceeds to set the mode, post the
movie config and issue the upload request (a buffer of length 3N - 1
yields frames_number 0 and is still uploaded); for a buffer of length
exactly 3 * N * F the derived frames_number equals F, and length 3 * N
yields frames_number 1. -/
theorem c6_movie_size_unchecked (fuel t : Nat) (dev : Device) (s : ClientState)
    (n E : Nat) (movie : List Nat) (delay : Int) (F : Nat)
    (hlen : s.lengthCache = some n) (hn : 0 < n)
    (hexp : s.expires = some E) (ht : t < E)
    (hpost : ∀ ep, dev.postStatusOk ep = true) :
    movieBranch (fuel + 1) t dev s movie delay =
      (s,
       [Ev.http (Req.post "led/mode" (PostBody.modeSet "movie")),
        Ev.http (Req.post "led/movie/config"
          (PostBody.movieConfig delay n (framesNumber movie.length n))),
        Ev.http (Req.post "led/movie/full" (PostBody.raw movie))],
       Except.ok ()) ∧
    (movie.length = 3 * n * F → framesNumber movie.length n = F) ∧
    (movie.length = 3 * n → framesNumber movie.length n = 1) := by
  have hnoop := ensure_token_valid_noop fuel t dev s (tokenExpired_of_lt hexp ht)
  refine ⟨?_, ?_, ?_⟩
  · simp [movieBranch, lengthProp, hlen, postOp, hnoop, hpost]
  · intro hF
    rw [framesNumber, hF, Nat.mul_assoc,
      Nat.mul_div_cancel_left _ (by norm_num : 0 < 3),
      Nat.mul_div_cancel_left _ hn]
  · intro h1
    rw [framesNumber, h1, Nat.mul_div_cancel_left _ (by norm_num : 0 < 3),
      Nat.div_self hn]

/-- C6 witness: a 9-byte buffer with LED count 3 uploads with
frames_number 1. -/
theorem c6_witness :
    sFrame3.lengthCache = some 3 ∧ (0 : Nat) < 3 ∧ movie9.length = 3 * 3 ∧
    movieBranch 1 0 dev0 sFrame3 movie9 100 =
      (sFrame3,
       [Ev.http (Req.post "led/mode" (PostBody.modeSet "movie")),
        Ev.http (Req.post "led/movie/config" (PostBody.movieConfig 100 3 1)),
        Ev.http (Req.post "led/movie/full" (PostBody.raw movie9))],
       Except.ok ()) ∧
    framesNumber movie9.length 3 = 1 :=
  ⟨rfl, by decide, by decide,
   by
     have h := (c6_movie_size_unchecked 0 0 dev0 sFrame3 3 100 movie9 100 1 rfl
       (by decide) rfl (by decide) (fun _ => rfl)).1
     simpa using h,
   (c6_movie_size_unchecked 0 0 dev0 sFrame3 3 100 movie9 100 1 rfl
       (by decide) rfl (by decide) (fun _ => rfl)).2.2 (by decide)⟩

/-- C9: The CLI dispatch chain handles network, firmware, details,
name, mode, mqtt-get, and movie by dispatching to the matching client
operation, but the registered token subcommand has no branch and falls
through to the fatal unknown-command error, and the mqtt --json branch
reads the absent args.mode attribute (AttributeError) instead of
setting the MQTT configuration and printing its result. -/
theorem c9_dispatch_table :
    dispatch (mkArgs "token" none none none none 100) true =
      CliOutcome.unknownCommand ∧
    dispatch (mkArgs "mqtt" none none (some "cfg") none 100) true =
      CliOutcome.attributeError "mode" ∧
    dispatch (mkArgs "network" none none none none 100) true =
      CliOutcome.ok ClientCall.getNetworkStatus ∧
    dispatch (mkArgs "firmware" none none none none 100) true =
      CliOutcome.ok ClientCall.getFirmwareVersion ∧
    dispatch (mkArgs "details" none none none none 100) true =
      CliOutcome.ok ClientCall.getDetailsCall ∧
    dispatch (mkArgs "name" none none none none 100) true =
      CliOutcome.ok ClientCall.getName ∧
    dispatch (mkArgs "name" (some "x") none none none 100) true =
      CliOutcome.ok (ClientCall.setName "x") ∧
    dispatch (mkArgs "mode" none none none none 100) true =
      CliOutcome.ok ClientCall.getMode ∧
    dispatch (mkArgs "mode" none (some "rt") none none 100) true =
      CliOutcome.ok (ClientCall.setMode "rt") ∧
    dispatch (mkArgs "mqtt" none none none none 100) true =
      CliOutcome.ok ClientCall.getMqtt ∧
    dispatch (mkArgs "movie" none none none (some "f.bin") 100) true =
      CliOutcome.ok (ClientCall.movieUpload "f.bin" 100) ∧
    dispatch (mkArgs "movie" none none none none 100) true =
      CliOutcome.ok ClientCall.getMovieConfig :=
  ⟨rfl, rfl, rfl, rfl, rfl, rfl, rfl, rfl, rfl, rfl, rfl, rfl⟩
